import Mathlib

/-!
Verification of the WWDC Momentum Dashboard backtest core
(`src/WWDCMomentumDashboard.tsx`, v2.2).

Shallow embedding conventions:
* JavaScript numbers are modelled as exact rationals (`ℚ`); the one use of
  `Math.sqrt` is modelled as the real square root, so values that can carry a
  square root live in `ℝ`.
* A calendar date string `"YYYY-MM-DD"` is modelled by its UTC epoch-day
  number (an `Int`): `toEpoch(d) = day(d) * 86400`, and the source comparison
  `new Date(t * 1000).toISOString().slice(0, 10) === date` holds exactly when
  `t.fdiv 86400 = day(date)`.
* The Yahoo chart payload for one event date is a `Chart`; the network layer
  (`fetch` plus JSON parsing, lines 59-64) is a function from the requested
  date to `Except String Chart`, errors standing for thrown `Error` messages.
* A thrown `Error e` is `Except.error e`; `try`/`catch` is the `Except` monad.
-/

namespace WWDC

/-- One parsed chart payload: `result.timestamp` (epoch seconds) and
`indicators.quote[0].close` (close prices, possibly `null`), source
lines 64-65. -/
structure Chart where
  timestamp : List Int
  closes : List (Option ℚ)
deriving DecidableEq

/-- The price-data collaborator: for an event date (epoch day) it yields the
parsed chart or a transport/parse error (source lines 59-64). -/
def Provider := Int → Except String Chart

/-- A configured event: year label and UTC epoch day of the event date
(entries of `wwdcDates`, source lines 29-36). -/
structure Event where
  year : Int
  date : Int
deriving DecidableEq

/-- One per-event result row `{ year, ret }` pushed at source line 89. -/
structure Row where
  year : Int
  ret : ℚ
deriving DecidableEq

/-- JavaScript `x.toFixed(2)` converted back to a number, on exact values:
round to 2 decimals, ties toward positive infinity
(`(0.125).toFixed(2) = "0.13"`, `(-0.125).toFixed(2) = "-0.12"`). -/
def round2 (q : ℚ) : ℚ := ((⌊q * 100 + 1 / 2⌋ : ℤ) : ℚ) / 100

/-- JavaScript `x.toFixed(0)` converted back to a number, on exact values. -/
def round0 (q : ℚ) : ℚ := ((⌊q + 1 / 2⌋ : ℤ) : ℚ)

/-- The real-valued version of `round2`, for the standard-deviation output. -/
noncomputable def round2R (x : ℝ) : ℝ := ((⌊x * 100 + 1 / 2⌋ : ℤ) : ℝ) / 100

/-- The source line 66 predicate
`new Date(t * 1000).toISOString().slice(0, 10) === date`: the session
timestamp `t` (epoch seconds) falls on UTC calendar day `d` (epoch day). -/
def sameUTCDay (t d : Int) : Bool := t.fdiv 86400 == d

/-- JavaScript `Array.prototype.findIndex`: index of the first element
satisfying `p`, and `-1` when none does. -/
def findIndex (p : α → Bool) : List α → Int
  | [] => -1
  | x :: xs =>
    if p x then 0 else (if findIndex p xs = -1 then -1 else findIndex p xs + 1)

/-- SessionLocator (source line 66): first index of `ts` whose UTC day equals
`d`, and `-1` when the date is not in the series. -/
def findSession (ts : List Int) (d : Int) : Int :=
  findIndex (fun t => sameUTCDay t d) ts

/-- OffsetResolver (source lines 67-68): `targetIdx = idx + offset` with the
combined bounds check `idx < 0 || targetIdx < 0 || targetIdx >= closes.length`;
out of range throws `"Offset outside range"`. -/
def resolveOffset (len : Nat) (anchorIdx offset : Int) : Except String Int :=
  let targetIdx := anchorIdx + offset
  if anchorIdx < 0 ∨ targetIdx < 0 ∨ (len : Int) ≤ targetIdx then
    Except.error "Offset outside range"
  else
    Except.ok targetIdx

/-- Source lines 69-71: read `closes[targetIdx]`; a `null`/`undefined` entry
throws `"Close price missing"`. -/
def readClose (closes : List (Option ℚ)) (i : Int) : Except String ℚ :=
  match closes.getD i.toNat none with
  | some p => Except.ok p
  | none => Except.error "Close price missing"

/-- Pure core of `fetchOHLC` (source lines 64-71), once the chart payload has
been obtained: locate the date, resolve the offset, read the close price. -/
def fetchOHLCfromChart (chart : Chart) (date offset : Int) : Except String ℚ := do
  let idx := findSession chart.timestamp date
  let targetIdx ← resolveOffset chart.closes.length idx offset
  readClose chart.closes targetIdx

/-- The function `fetchOHLC` (source lines 58-72): fetch the chart for `date`
through the provider, then extract the close price `offset` sessions away. -/
def fetchOHLC (p : Provider) (date offset : Int) : Except String ℚ := do
  let chart ← p date
  fetchOHLCfromChart chart date offset

/-- ReturnCalculator (source line 89):
`+(((sellP - buyP) / buyP) * 100).toFixed(2)`. -/
def percentReturn (entryP exitP : ℚ) : ℚ := round2 ((exitP - entryP) / entryP * 100)

/-- The `for (const ev of wwdcDates)` loop of `runBacktest`
(source lines 85-90): one row per event, aborting on the first thrown error. -/
def runRows (p : Provider) (buyVal sellVal : Int) : List Event → Except String (List Row)
  | [] => Except.ok []
  | ev :: rest => do
    let buyP ← fetchOHLC p ev.date buyVal
    let sellP ← fetchOHLC p ev.date sellVal
    let rows ← runRows p buyVal sellVal rest
    Except.ok (⟨ev.year, percentReturn buyP sellP⟩ :: rows)

/-- Source line 91: `rows.reduce((s, r) => s + r.ret, 0) / rows.length`,
applied to the list of returns. -/
def meanQ (rets : List ℚ) : ℚ := rets.foldl (fun s r => s + r) 0 / rets.length

/-- The radicand at source line 92: population variance
`rows.reduce((s, r) => s + Math.pow(r.ret - mean, 2), 0) / rows.length`. -/
def popVar (rets : List ℚ) : ℚ :=
  rets.foldl (fun s r => s + (r - meanQ rets) ^ 2) 0 / rets.length

/-- Source line 93: `rows.filter((r) => r.ret > 0).length / rows.length`. -/
def winRateQ (rets : List ℚ) : ℚ :=
  ((rets.filter fun r => decide (0 < r)).length : ℚ) / rets.length

/-- Source line 92: `Math.sqrt` of the population variance, modelled as the
real square root. -/
noncomputable def stdevR (rets : List ℚ) : ℝ := Real.sqrt ((popVar rets : ℚ) : ℝ)

/-- StatsAggregator output: the three aggregate values as displayed. -/
structure Summary where
  mean : ℚ
  stdev : ℝ
  winRate : ℚ

/-- StatsAggregator (source lines 91-98): displayed mean, population standard
deviation and win-rate percentage, each rounded as in the source. -/
noncomputable def summarize (rets : List ℚ) : Summary :=
  ⟨round2 (meanQ rets), round2R (stdevR rets), round0 (winRateQ rets * 100)⟩

/-- Label of a displayed row: `year` is a number, the aggregates carry the
strings `"Avg"`, `"StDev"`, `"WinRate"` (source lines 94-99). -/
inductive YearTag
  | year (y : Int)
  | avg
  | stDev
  | winRate
deriving DecidableEq

/-- One displayed row `{ year: number | string, ret }`; `ret` lives in `ℝ`
because the `StDev` row carries a square root. -/
structure SummaryRow where
  tag : YearTag
  ret : ℝ

/-- Per-event display row (spread `...rows` at source line 95). -/
def perEventRow (r : Row) : SummaryRow := ⟨YearTag.year r.year, (r.ret : ℝ)⟩

/-- The three aggregate display rows appended at source lines 96-98. -/
noncomputable def aggregateRows (rets : List ℚ) : List SummaryRow :=
  [⟨YearTag.avg, ((summarize rets).mean : ℝ)⟩,
   ⟨YearTag.stDev, (summarize rets).stdev⟩,
   ⟨YearTag.winRate, ((summarize rets).winRate : ℝ)⟩]

/-- The successful part of `runBacktest` (source lines 85-99): compute the
per-event rows, then append the `Avg`, `StDev`, `WinRate` aggregate rows. -/
noncomputable def runBacktest (p : Provider) (events : List Event)
    (buyVal sellVal : Int) : Except String (List SummaryRow) := do
  let rows ← runRows p buyVal sellVal events
  Except.ok (rows.map perEventRow ++ aggregateRows (rows.map Row.ret))

/-- The component state touched by `runBacktest` (source lines 77-79). -/
structure UIState where
  results : Option (List SummaryRow)
  loading : Bool
  error : Option String

/-- Net state transition of one `runBacktest` invocation (source
lines 81-105): on success `setResults` runs and the error is cleared; on a
thrown error only `setError` runs (the `setError(null)` from line 83 being
overwritten), and `results` is not written; the `finally` block clears
`loading` on both paths. -/
noncomputable def runBacktestHandler (p : Provider) (events : List Event)
    (buyVal sellVal : Int) (st : UIState) : UIState :=
  match runBacktest p events buyVal sellVal with
  | Except.ok rows => { st with results := some rows, error := none, loading := false }
  | Except.error msg => { st with error := some msg, loading := false }

/-- The configured event list (source lines 29-36), dates as UTC epoch days:
2019-06-03 = 18050, 2020-06-22 = 18435, 2021-06-07 = 18785,
2022-06-06 = 19149, 2023-06-05 = 19513, 2024-06-10 = 19884. -/
def wwdcDates : List Event :=
  [⟨2019, 18050⟩, ⟨2020, 18435⟩, ⟨2021, 18785⟩,
   ⟨2022, 19149⟩, ⟨2023, 19513⟩, ⟨2024, 19884⟩]

/-- Both close prices of one event were resolved, and the row is the rounded
percentage return between them. -/
def Resolved (p : Provider) (b s : Int) (ev : Event) (row : Row) : Prop :=
  ∃ bp sp, fetchOHLC p ev.date b = Except.ok bp ∧
    fetchOHLC p ev.date s = Except.ok sp ∧
    row = ⟨ev.year, percentReturn bp sp⟩

/-! Concrete collaborators used to exercise the theorems on closed inputs. -/

/-- A provider whose chart for any date holds exactly the requested session
with close price `q`. -/
def unitProvider (q : ℚ) : Provider := fun d => Except.ok ⟨[d * 86400], [some q]⟩

/-- A provider that always fails with a transport error. -/
def failingProvider : Provider := fun _ => Except.error "Network error 500"

/-- A provider equal to `unitProvider 100` on every date except day `999`. -/
def altProvider : Provider := fun d =>
  if d = 999 then Except.error "Network error 500"
  else Except.ok ⟨[d * 86400], [some 100]⟩

/-- The six rows produced by a run of the unit provider over `wwdcDates`. -/
def unitRows : List Row :=
  [⟨2019, percentReturn 100 100⟩, ⟨2020, percentReturn 100 100⟩,
   ⟨2021, percentReturn 100 100⟩, ⟨2022, percentReturn 100 100⟩,
   ⟨2023, percentReturn 100 100⟩, ⟨2024, percentReturn 100 100⟩]

/-! Helper lemmas about the `Except` monad and the embedded functions. -/

theorem except_bind_ok (a : α) (f : α → Except ε β) :
    (Except.ok a >>= f : Except ε β) = f a := rfl

theorem except_bind_error (e : ε) (f : α → Except ε β) :
    (Except.error e >>= f : Except ε β) = Except.error e := rfl

theorem findIndex_eq_neg_one (p : α → Bool) (l : List α)
    (h : ∀ x ∈ l, p x = false) : findIndex p l = -1 := by
  induction l with
  | nil => rfl
  | cons x xs ih =>
    rw [findIndex, h x (by simp), ih fun y hy => h y (by simp [hy])]
    simp

theorem findIndex_eq_first (p : α → Bool) :
    ∀ (l : List α) (i : Nat) (hi : i < l.length),
      p (l.get ⟨i, hi⟩) = true →
      (∀ (j : Nat) (hj : j < l.length), j < i → p (l.get ⟨j, hj⟩) = false) →
      findIndex p l = i := by
  intro l
  induction l with
  | nil => intro i hi; exact absurd hi (by simp)
  | cons x xs ih =>
    intro i hi hp hmin
    match i with
    | 0 =>
      simp only [List.get] at hp
      rw [findIndex, hp]
      simp
    | Nat.succ k =>
      have hx : p x = false := hmin 0 (by simp) (by omega)
      have hk : k < xs.length := by simpa using hi
      have hpk : p (xs.get ⟨k, hk⟩) = true := by simpa using hp
      have hmink : ∀ (j : Nat) (hj : j < xs.length), j < k →
          p (xs.get ⟨j, hj⟩) = false := by
        intro j hj hjk
        have := hmin (j + 1) (by simpa using hj) (by omega)
        simpa using this
      have hxs : findIndex p xs = k := ih k hk hpk hmink
      rw [findIndex, hx]
      simp only [Bool.false_eq_true, if_false, hxs]
      have : (k : Int) ≠ -1 := by omega
      rw [if_neg this]
      push_cast
      ring

theorem foldl_add_map (f : α → ℚ) (l : List α) :
    ∀ init : ℚ, l.foldl (fun s r => s + f r) init = init + (l.map f).sum := by
  induction l with
  | nil => simp
  | cons x xs ih => intro init; simp [ih, add_assoc]

theorem meanQ_eq (rets : List ℚ) : meanQ rets = rets.sum / rets.length := by
  have h := foldl_add_map (fun r => r) rets 0
  simp only [meanQ, h, zero_add]
  simp

theorem popVar_eq (rets : List ℚ) :
    popVar rets =
      ((rets.map fun r => (r - rets.sum / rets.length) ^ 2).sum : ℚ) / rets.length := by
  rw [popVar, foldl_add_map (fun r => (r - meanQ rets) ^ 2) rets 0, zero_add,
    meanQ_eq]

theorem winRateQ_eq (rets : List ℚ) :
    winRateQ rets = ((rets.countP fun r => decide (0 < r)) : ℚ) / rets.length := by
  simp [winRateQ, List.countP_eq_length_filter]

theorem runRows_cons (p : Provider) (b s : Int) (ev : Event) (rest : List Event) :
    runRows p b s (ev :: rest) =
      (fetchOHLC p ev.date b >>= fun buyP =>
       fetchOHLC p ev.date s >>= fun sellP =>
       runRows p b s rest >>= fun rows =>
       Except.ok (⟨ev.year, percentReturn buyP sellP⟩ :: rows)) := rfl

theorem runRows_ok_forall2 (p : Provider) (b s : Int) :
    ∀ (events : List Event) (rows : List Row),
      runRows p b s events = Except.ok rows →
      List.Forall₂ (Resolved p b s) events rows := by
  intro events
  induction events with
  | nil =>
    intro rows h
    obtain rfl : ([] : List Row) = rows := by simpa [runRows] using h
    exact List.Forall₂.nil
  | cons ev rest ih =>
    intro rows h
    rw [runRows_cons] at h
    cases hb : fetchOHLC p ev.date b with
    | error e => rw [hb, except_bind_error] at h; exact absurd h (by simp)
    | ok bp =>
      rw [hb, except_bind_ok] at h
      cases hs : fetchOHLC p ev.date s with
      | error e => rw [hs, except_bind_error] at h; exact absurd h (by simp)
      | ok sp =>
        rw [hs, except_bind_ok] at h
        cases hr : runRows p b s rest with
        | error e => rw [hr, except_bind_error] at h; exact absurd h (by simp)
        | ok rows₀ =>
          rw [hr, except_bind_ok] at h
          obtain rfl : (⟨ev.year, percentReturn bp sp⟩ : Row) :: rows₀ = rows := by
            simpa using h
          exact List.Forall₂.cons ⟨bp, sp, hb, hs, rfl⟩ (ih rows₀ hr)

theorem map_year_of_forall2 {p : Provider} {b s : Int}
    {events : List Event} {rows : List Row}
    (h : List.Forall₂ (Resolved p b s) events rows) :
    rows.map Row.year = events.map Event.year := by
  induction h with
  | nil => rfl
  | cons hrel _ ih =>
    obtain ⟨bp, sp, _, _, rfl⟩ := hrel
    simp [ih]

theorem runRows_error_of_fail (p : Provider) (b s : Int) :
    ∀ events : List Event,
      (∃ ev ∈ events, (∀ q, fetchOHLC p ev.date b ≠ Except.ok q) ∨
        (∀ q, fetchOHLC p ev.date s ≠ Except.ok q)) →
      ∃ msg, runRows p b s events = Except.error msg := by
  intro events
  induction events with
  | nil => rintro ⟨ev, hev, _⟩; exact absurd hev (by simp)
  | cons ev rest ih =>
    rintro ⟨ev₀, hev₀, hfail⟩
    cases hb : fetchOHLC p ev.date b with
    | error e => exact ⟨e, by rw [runRows_cons, hb, except_bind_error]⟩
    | ok bp =>
      cases hs : fetchOHLC p ev.date s with
      | error e => exact ⟨e, by rw [runRows_cons, hb, except_bind_ok, hs, except_bind_error]⟩
      | ok sp =>
        have hmem : ev₀ ∈ rest := by
          rcases List.mem_cons.1 hev₀ with rfl | hmem
          · rcases hfail with hfb | hfs
            · exact absurd hb (hfb bp)
            · exact absurd hs (hfs sp)
          · exact hmem
        obtain ⟨msg, hmsg⟩ := ih ⟨ev₀, hmem, hfail⟩
        exact ⟨msg, by
          rw [runRows_cons, hb, except_bind_ok, hs, except_bind_ok, hmsg,
            except_bind_error]⟩

theorem runBacktest_of_runRows_ok (p : Provider) (events : List Event)
    (b s : Int) (rows : List Row) (h : runRows p b s events = Except.ok rows) :
    runBacktest p events b s =
      Except.ok (rows.map perEventRow ++ aggregateRows (rows.map Row.ret)) := by
  unfold runBacktest
  rw [h, except_bind_ok]

theorem runBacktest_of_runRows_error (p : Provider) (events : List Event)
    (b s : Int) (msg : String) (h : runRows p b s events = Except.error msg) :
    runBacktest p events b s = Except.error msg := by
  unfold runBacktest
  rw [h, except_bind_error]

theorem runBacktest_ok_inv (p : Provider) (events : List Event) (b s : Int)
    (out : List SummaryRow) (h : runBacktest p events b s = Except.ok out) :
    ∃ rows, runRows p b s events = Except.ok rows ∧
      out = rows.map perEventRow ++ aggregateRows (rows.map Row.ret) := by
  unfold runBacktest at h
  cases hr : runRows p b s events with
  | error e => rw [hr, except_bind_error] at h; exact absurd h (by simp)
  | ok rows =>
    rw [hr, except_bind_ok] at h
    exact ⟨rows, rfl, by simpa using h.symm⟩

theorem fetchOHLC_agree (p₁ p₂ : Provider) (d off : Int) (h : p₁ d = p₂ d) :
    fetchOHLC p₁ d off = fetchOHLC p₂ d off := by
  unfold fetchOHLC
  rw [h]

theorem runRows_agree (p₁ p₂ : Provider) (b s : Int) :
    ∀ events : List Event, (∀ ev ∈ events, p₁ ev.date = p₂ ev.date) →
      runRows p₁ b s events = runRows p₂ b s events := by
  intro events
  induction events with
  | nil => intro _; rfl
  | cons ev rest ih =>
    intro h
    have hd : p₁ ev.date = p₂ ev.date := h ev (by simp)
    rw [runRows_cons, runRows_cons, fetchOHLC_agree p₁ p₂ ev.date b hd,
      fetchOHLC_agree p₁ p₂ ev.date s hd, ih fun e he => h e (by simp [he])]

end WWDC

namespace WWDC

/-- C1: over every non-empty sequence of return observations, `summarize`
produces the arithmetic mean rounded to 2 decimals, the population standard
deviation (sum of squared deviations over N, then square root) rounded to 2
decimals, and the fraction of strictly positive returns as a percentage
rounded to 0 decimals; over `[10]` it yields mean 10.00, stdev 0.00,
winRate 100, and over `[2, -2, 4, -4]` it yields mean 0.00 and winRate 50. -/
theorem claim1_stats_aggregator :
    (∀ rets : List ℚ, rets ≠ [] →
      (summarize rets).mean = round2 (rets.sum / rets.length) ∧
      (summarize rets).stdev =
        round2R (Real.sqrt
          ((((rets.map fun r => (r - rets.sum / rets.length) ^ 2).sum /
            rets.length : ℚ)) : ℝ)) ∧
      (summarize rets).winRate =
        round0 (((rets.countP fun r => decide (0 < r)) : ℚ) / rets.length * 100)) ∧
    (summarize [10]).mean = 10 ∧ (summarize [10]).stdev = 0 ∧
    (summarize [10]).winRate = 100 ∧
    (summarize [2, -2, 4, -4]).mean = 0 ∧
    (summarize [2, -2, 4, -4]).winRate = 50 := by
  refine ⟨fun rets _ => ⟨?_, ?_, ?_⟩, ?_, ?_, ?_, ?_, ?_⟩
  · rw [summarize, meanQ_eq]
  · rw [summarize, stdevR, popVar_eq]
  · rw [summarize, winRateQ_eq]
  · show round2 (meanQ [10]) = 10
    norm_num [round2, meanQ]
  · show round2R (stdevR [10]) = 0
    have hv : popVar [10] = 0 := by norm_num [popVar, meanQ]
    rw [stdevR, hv]
    norm_num [round2R]
  · show round0 (winRateQ [10] * 100) = 100
    norm_num [round0, winRateQ, List.filter]
  · show round2 (meanQ [2, -2, 4, -4]) = 0
    norm_num [round2, meanQ]
  · show round0 (winRateQ [2, -2, 4, -4] * 100) = 50
    norm_num [round0, winRateQ, List.filter]

/-- Witness for C1, instantiating the universal part at the single
observation `[10]`. -/
theorem claim1_stats_aggregator_witness :
    ([(10 : ℚ)] ≠ []) ∧
    ((summarize [10]).mean = round2 (([(10 : ℚ)].sum) / [(10 : ℚ)].length) ∧
     (summarize [10]).stdev =
       round2R (Real.sqrt
         (((([(10 : ℚ)].map fun r => (r - [(10 : ℚ)].sum / [(10 : ℚ)].length) ^ 2).sum /
           [(10 : ℚ)].length : ℚ)) : ℝ)) ∧
     (summarize [10]).winRate =
       round0 ((([(10 : ℚ)].countP fun r => decide (0 < r)) : ℚ) /
         [(10 : ℚ)].length * 100)) :=
  ⟨by simp, claim1_stats_aggregator.1 [10] (by simp)⟩

/-- C2: for a located (hence non-negative) anchor index, offset resolution
returns exactly `anchorIdx + offset` whenever that sum lies in
`[0, length)`, and signals the `"Offset outside range"` error (never a
clamped index) whenever it falls outside. -/
theorem claim2_offset_resolution (len : Nat) (anchorIdx offset : Int)
    (h : 0 ≤ anchorIdx) :
    (0 ≤ anchorIdx + offset → anchorIdx + offset < (len : Int) →
      resolveOffset len anchorIdx offset = Except.ok (anchorIdx + offset)) ∧
    (anchorIdx + offset < 0 ∨ (len : Int) ≤ anchorIdx + offset →
      resolveOffset len anchorIdx offset =
        Except.error "Offset outside range") := by
  constructor
  · intro h1 h2
    rw [resolveOffset, if_neg (by omega)]
  · intro h1
    rw [resolveOffset, if_pos (by omega)]

/-- Witness for C2 at `len = 10`, `anchorIdx = 3`: offset `2` resolves to
index `5`, offset `20` is out of range. -/
theorem claim2_offset_resolution_witness :
    ((0 ≤ (3 : Int) + 2 → (3 : Int) + 2 < ((10 : Nat) : Int) →
       resolveOffset 10 3 2 = Except.ok (3 + 2)) ∧
     ((3 : Int) + 2 < 0 ∨ ((10 : Nat) : Int) ≤ (3 : Int) + 2 →
       resolveOffset 10 3 2 = Except.error "Offset outside range")) ∧
    resolveOffset 10 3 20 = Except.error "Offset outside range" :=
  ⟨claim2_offset_resolution 10 3 2 (by norm_num),
   (claim2_offset_resolution 10 3 20 (by norm_num)).2 (by norm_num)⟩

/-- C3 counterexample: a series containing only day 4 queried for day 3
fails with exactly the same error value `"Offset outside range"` that a
genuine out-of-range offset produces — there is no distinct
`DateNotInSeries` signal in the code. -/
theorem claim3_counterexample :
    fetchOHLCfromChart ⟨[86400 * 4], [some 100]⟩ 3 0 =
      Except.error "Offset outside range" ∧
    fetchOHLCfromChart ⟨[86400 * 3], [some 100]⟩ 3 5 =
      Except.error "Offset outside range" ∧
    findSession [86400 * 4] 3 = -1 :=
  ⟨rfl, rfl, rfl⟩

/-- C3 amended: session location matches the target date by equality on the
UTC calendar day and returns the first matching index; if no session matches,
the lookup fails and a backtest run over such an event aborts with no
observations — but with the error message `"Offset outside range"` shared
with the out-of-range case, not a distinct `DateNotInSeries` error. -/
theorem claim3_session_location :
    (∀ (ts : List Int) (d : Int) (i : Nat) (hi : i < ts.length),
      sameUTCDay (ts.get ⟨i, hi⟩) d = true →
      (∀ (j : Nat) (hj : j < ts.length), j < i →
        sameUTCDay (ts.get ⟨j, hj⟩) d = false) →
      findSession ts d = i) ∧
    (∀ (chart : Chart) (d off : Int),
      (∀ t ∈ chart.timestamp, sameUTCDay t d = false) →
      findSession chart.timestamp d = -1 ∧
      fetchOHLCfromChart chart d off = Except.error "Offset outside range") ∧
    (∀ (p : Provider) (ev : Event) (rest : List Event) (b s : Int)
        (chart : Chart),
      p ev.date = Except.ok chart →
      (∀ t ∈ chart.timestamp, sameUTCDay t ev.date = false) →
      runBacktest p (ev :: rest) b s =
        Except.error "Offset outside range") := by
  have hchart : ∀ (chart : Chart) (d off : Int),
      (∀ t ∈ chart.timestamp, sameUTCDay t d = false) →
      findSession chart.timestamp d = -1 ∧
      fetchOHLCfromChart chart d off = Except.error "Offset outside range" := by
    intro chart d off hnone
    have hfs : findSession chart.timestamp d = -1 :=
      findIndex_eq_neg_one _ _ hnone
    refine ⟨hfs, ?_⟩
    rw [fetchOHLCfromChart]
    rw [hfs]
    have : resolveOffset chart.closes.length (-1) off =
        Except.error "Offset outside range" := by
      rw [resolveOffset, if_pos (Or.inl (by norm_num))]
    rw [this, except_bind_error]
  refine ⟨fun ts d i hi hp hmin =>
    findIndex_eq_first (fun t => sameUTCDay t d) ts i hi hp hmin, hchart, ?_⟩
  intro p ev rest b s chart hp hnone
  have hfetch : fetchOHLC p ev.date b = Except.error "Offset outside range" := by
    rw [fetchOHLC, hp, except_bind_ok, (hchart chart ev.date b hnone).2]
  refine runBacktest_of_runRows_error p (ev :: rest) b s _ ?_
  rw [runRows_cons, hfetch, except_bind_error]

/-- Witness for C3 as amended: over a single-session chart for day 4 queried
for day 3, the first-match property holds on a matching series and the run
aborts with the shared error message. -/
theorem claim3_session_location_witness :
    findSession [86400 * 3] 3 = 0 ∧
    runBacktest (fun _ => Except.ok ⟨[86400 * 4], [some 100]⟩)
      [⟨2019, 3⟩] 0 0 = Except.error "Offset outside range" :=
  ⟨claim3_session_location.1 [86400 * 3] 3 0 (by simp)
      (by decide) (fun j hj hj0 => absurd hj0 (by omega)),
   claim3_session_location.2.2 (fun _ => Except.ok ⟨[86400 * 4], [some 100]⟩)
      ⟨2019, 3⟩ [] 0 0 ⟨[86400 * 4], [some 100]⟩ rfl (by decide)⟩

/-- C4 counterexample: a resolved close price of `0` is not rejected — the
fetch succeeds with price `0` and the run computes a return observation from
a zero entry price instead of signalling `InvalidPrice`. -/
theorem claim4_counterexample :
    fetchOHLCfromChart ⟨[86400 * 3], [some 0]⟩ 3 0 = Except.ok 0 ∧
    runRows (fun _ => Except.ok ⟨[86400 * 3], [some 0]⟩) 0 0 [⟨2019, 3⟩] =
      Except.ok [⟨2019, percentReturn 0 0⟩] :=
  ⟨rfl, rfl⟩

/-- C4 amended: only a missing (`null`/`undefined`) resolved close price is
rejected, with the error `"Close price missing"`; any present price — zero or
negative included — is accepted and flows into the return computation. -/
theorem claim4_null_price_check :
    (∀ (closes : List (Option ℚ)) (i : Int),
      closes.getD i.toNat none = none →
      readClose closes i = Except.error "Close price missing") ∧
    (∀ (closes : List (Option ℚ)) (i : Int) (q : ℚ),
      closes.getD i.toNat none = some q →
      readClose closes i = Except.ok q) ∧
    readClose [some 0] 0 = Except.ok 0 ∧
    readClose [some (-5)] 0 = Except.ok (-5) := by
  refine ⟨?_, ?_, rfl, rfl⟩
  · intro closes i h
    rw [readClose, h]
  · intro closes i q h
    rw [readClose, h]

/-- Witness for C4 as amended: a `null` entry is rejected, a present price
`7` is returned. -/
theorem claim4_null_price_check_witness :
    readClose [none] 0 = Except.error "Close price missing" ∧
    readClose [some 7] 0 = Except.ok 7 :=
  ⟨claim4_null_price_check.1 [none] 0 rfl,
   claim4_null_price_check.2.1 [some 7] 0 7 rfl⟩

/-- C5: on success every emitted row corresponds, in input order, to an event
whose entry and exit prices both resolved; and if any event in the list fails
to resolve either price, the whole backtest returns a single error and no
observation list at all. -/
theorem claim5_abort_policy (p : Provider) (b s : Int) (events : List Event) :
    (∀ rows, runRows p b s events = Except.ok rows →
      List.Forall₂ (Resolved p b s) events rows) ∧
    ((∃ ev ∈ events, (∀ q, fetchOHLC p ev.date b ≠ Except.ok q) ∨
        (∀ q, fetchOHLC p ev.date s ≠ Except.ok q)) →
      ∃ msg, runBacktest p events b s = Except.error msg) := by
  refine ⟨fun rows h => runRows_ok_forall2 p b s events rows h, fun hfail => ?_⟩
  obtain ⟨msg, hmsg⟩ := runRows_error_of_fail p b s events hfail
  exact ⟨msg, runBacktest_of_runRows_error p events b s msg hmsg⟩

/-- Witness for C5: with a provider that always fails, a one-event backtest
returns an error; with a working provider, the single emitted row has both
prices resolved. -/
theorem claim5_abort_policy_witness :
    (∃ msg, runBacktest failingProvider [⟨2019, 3⟩] 0 0 = Except.error msg) ∧
    List.Forall₂ (Resolved (unitProvider 100) 0 0) [⟨2019, 3⟩]
      [⟨2019, percentReturn 100 100⟩] :=
  ⟨(claim5_abort_policy failingProvider 0 0 [⟨2019, 3⟩]).2
      ⟨⟨2019, 3⟩, by simp, Or.inl fun q hq => by
        simp [failingProvider, fetchOHLC, except_bind_error] at hq⟩,
   (claim5_abort_policy (unitProvider 100) 0 0 [⟨2019, 3⟩]).1
      [⟨2019, percentReturn 100 100⟩] rfl⟩

/-- C6: the percentage return is `(exit - entry) / entry * 100` rounded to
2 decimals for every non-zero entry price; `percentReturn 100 105 = 5.00`,
`percentReturn 100 95 = -5.00`, `percentReturn 100 100 = 0.00`. -/
theorem claim6_percent_return :
    (∀ entryP exitP : ℚ, entryP ≠ 0 →
      percentReturn entryP exitP = round2 ((exitP - entryP) / entryP * 100)) ∧
    percentReturn 100 105 = 5 ∧ percentReturn 100 95 = -5 ∧
    percentReturn 100 100 = 0 := by
  refine ⟨fun _ _ _ => rfl, ?_, ?_, ?_⟩ <;> norm_num [percentReturn, round2]

/-- Witness for C6 at entry 100, exit 105. -/
theorem claim6_percent_return_witness :
    percentReturn 100 105 = round2 ((105 - 100) / 100 * 100) :=
  claim6_percent_return.1 100 105 (by norm_num)

/-- C7: every successful backtest output is exactly one per-event row per
input event (same order, matching year labels) followed by the three
aggregate rows in the fixed order `Avg`, `StDev`, `WinRate`. -/
theorem claim7_output_order (p : Provider) (events : List Event) (b s : Int)
    (rows : List Row) (h : runRows p b s events = Except.ok rows) :
    runBacktest p events b s =
      Except.ok (rows.map perEventRow ++
        [⟨YearTag.avg, ((summarize (rows.map Row.ret)).mean : ℝ)⟩,
         ⟨YearTag.stDev, (summarize (rows.map Row.ret)).stdev⟩,
         ⟨YearTag.winRate, ((summarize (rows.map Row.ret)).winRate : ℝ)⟩]) ∧
    rows.map Row.year = events.map Event.year ∧
    rows.length = events.length := by
  refine ⟨runBacktest_of_runRows_ok p events b s rows h, ?_, ?_⟩
  · exact map_year_of_forall2 (runRows_ok_forall2 p b s events rows h)
  · exact (runRows_ok_forall2 p b s events rows h).length_eq.symm

/-- Witness for C7 over a one-event run with the unit provider. -/
theorem claim7_output_order_witness :
    runBacktest (unitProvider 100) [⟨2019, 3⟩] 0 0 =
      Except.ok ([⟨2019, percentReturn 100 100⟩].map perEventRow ++
        [⟨YearTag.avg,
           ((summarize ([(⟨2019, percentReturn 100 100⟩ : Row)].map Row.ret)).mean : ℝ)⟩,
         ⟨YearTag.stDev,
           (summarize ([(⟨2019, percentReturn 100 100⟩ : Row)].map Row.ret)).stdev⟩,
         ⟨YearTag.winRate,
           ((summarize ([(⟨2019, percentReturn 100 100⟩ : Row)].map Row.ret)).winRate : ℝ)⟩]) ∧
    [(⟨2019, percentReturn 100 100⟩ : Row)].map Row.year =
      [(⟨2019, 3⟩ : Event)].map Event.year ∧
    [(⟨2019, percentReturn 100 100⟩ : Row)].length =
      [(⟨2019, 3⟩ : Event)].length :=
  claim7_output_order (unitProvider 100) [⟨2019, 3⟩] 0 0
    [⟨2019, percentReturn 100 100⟩] rfl

/-- C8: the configured event list has six events (so it is non-empty), and on
any successful run over it the aggregation is invoked over exactly six
observations, so the divisors in mean, stdev and winRate equal 6, never 0. -/
theorem claim8_nonempty_aggregation :
    wwdcDates.length = 6 ∧ wwdcDates ≠ [] ∧
    (∀ (p : Provider) (b s : Int) (rows : List Row),
      runRows p b s wwdcDates = Except.ok rows →
      runBacktest p wwdcDates b s =
        Except.ok (rows.map perEventRow ++ aggregateRows (rows.map Row.ret)) ∧
      (rows.map Row.ret).length = 6 ∧ ((rows.map Row.ret).length : ℚ) ≠ 0) := by
  refine ⟨rfl, by simp [wwdcDates], ?_⟩
  intro p b s rows h
  have hlen : rows.length = 6 := by
    have := (runRows_ok_forall2 p b s wwdcDates rows h).length_eq
    simp [wwdcDates] at this
    omega
  exact ⟨runBacktest_of_runRows_ok p wwdcDates b s rows h,
    by simp [hlen], by simp [hlen]⟩

/-- Witness for C8: a successful run over the configured six events. -/
theorem claim8_nonempty_aggregation_witness :
    runBacktest (unitProvider 100) wwdcDates 0 0 =
      Except.ok (unitRows.map perEventRow ++
        aggregateRows (unitRows.map Row.ret)) ∧
    (unitRows.map Row.ret).length = 6 ∧
    ((unitRows.map Row.ret).length : ℚ) ≠ 0 :=
  claim8_nonempty_aggregation.2.2 (unitProvider 100) 0 0 unitRows rfl

/-- C9: the backtest output is a function of the events, the two offsets and
the price series the provider returns for the event dates — two runs whose
providers agree on every event date produce identical output. -/
theorem claim9_determinism (p₁ p₂ : Provider) (events : List Event) (b s : Int)
    (h : ∀ ev ∈ events, p₁ ev.date = p₂ ev.date) :
    runBacktest p₁ events b s = runBacktest p₂ events b s := by
  unfold runBacktest
  rw [runRows_agree p₁ p₂ b s events h]

/-- Witness for C9: `altProvider` differs from `unitProvider 100` only on a
date no event uses, and the outputs coincide. -/
theorem claim9_determinism_witness :
    runBacktest (unitProvider 100) [⟨2019, 3⟩] 0 0 =
      runBacktest altProvider [⟨2019, 3⟩] 0 0 :=
  claim9_determinism (unitProvider 100) altProvider [⟨2019, 3⟩] 0 0
    (by intro ev hev; simp only [List.mem_singleton] at hev; subst hev; rfl)

/-- C10: when a backtest run fails, the handler leaves the previously stored
results untouched, stores the error message, and clears the loading flag —
earlier results stay intact alongside the new error. -/
theorem claim10_error_frame (p : Provider) (events : List Event) (b s : Int)
    (st : UIState) (msg : String)
    (h : runBacktest p events b s = Except.error msg) :
    (runBacktestHandler p events b s st).results = st.results ∧
    (runBacktestHandler p events b s st).error = some msg ∧
    (runBacktestHandler p events b s st).loading = false := by
  unfold runBacktestHandler
  rw [h]
  exact ⟨rfl, rfl, rfl⟩

/-- Witness for C10: a failing run over a state holding earlier results. -/
theorem claim10_error_frame_witness :
    (runBacktestHandler failingProvider [⟨2019, 3⟩] 0 0
        ⟨some [⟨YearTag.avg, 0⟩], true, none⟩).results =
      some [⟨YearTag.avg, 0⟩] ∧
    (runBacktestHandler failingProvider [⟨2019, 3⟩] 0 0
        ⟨some [⟨YearTag.avg, 0⟩], true, none⟩).error =
      some "Network error 500" ∧
    (runBacktestHandler failingProvider [⟨2019, 3⟩] 0 0
        ⟨some [⟨YearTag.avg, 0⟩], true, none⟩).loading = false :=
  claim10_error_frame failingProvider [⟨2019, 3⟩] 0 0
    ⟨some [⟨YearTag.avg, 0⟩], true, none⟩ "Network error 500"
    (runBacktest_of_runRows_error failingProvider [⟨2019, 3⟩] 0 0
      "Network error 500" rfl)

end WWDC
